import Mathlib

/-!
# Verification of `core/context.py` (maya-autorig)

Shallow embedding of the character-context helper of the repository:
the `Character` cached-state class, the `_load` scene search, the
`initialize` entry point, the dialog `submit` handler and the two input
validation regexes.  The Maya scene (selection list, transform nodes in
breadth-first traversal order, and node attributes) is modelled as an
explicit `Scene` value threaded through the functions; the Python class
attributes of `Character` become an explicit `CharacterState` record.
-/

namespace Context

/-! ## Attribute name constants (`_NAME_ATTR`, `_INITIALS_ATTR`, `_LAYOUT_SIZE_ATTR`) -/

def NAME_ATTR : String := "rigGenName"
def INITIALS_ATTR : String := "rigGenInitials"
def LAYOUT_SIZE_ATTR : String := "layoutSize"

/-! ## String helpers

Python `str.split(sep)` with a one-character separator keeps empty
components; `str.capitalize()` upper-cases the first character and
lower-cases the rest (ASCII model). -/

def splitOnCharAux (sep : Char) : List Char → List Char → List (List Char)
  | [], acc => [acc.reverse]
  | c :: cs, acc =>
    if c = sep then acc.reverse :: splitOnCharAux sep cs []
    else splitOnCharAux sep cs (c :: acc)

/-- Python `s.split(sep)` for a single-character separator. -/
def pySplit (sep : Char) (s : String) : List String :=
  (splitOnCharAux sep s.data []).map String.mk

/-- Python `str.capitalize()` (ASCII model). -/
def pyCapitalize (s : String) : String :=
  match s.data with
  | [] => ""
  | c :: cs => String.mk (c.toUpper :: cs.map Char.toLower)

/-- `_camelCase`: split on spaces, capitalize each word, join. -/
def camelCase (s : String) : String :=
  String.join ((pySplit ' ' s).map pyCapitalize)

/-! ## `MayaDagObject`, `Side`, `Suffix`

`MayaDagObject` (from `core/maya_object.py`, not part of the sources)
is used here only as a named handle on a scene object. -/

structure MayaDagObject where
  name : String
deriving DecidableEq, Repr

inductive Side where
  | CENTER | LEFT | RIGHT
deriving DecidableEq, Repr

inductive Suffix where
  | GROUP
deriving DecidableEq, Repr

def Side.tag : Side → String
  | .CENTER => "C"
  | .LEFT => "L"
  | .RIGHT => "R"

def Suffix.tag : Suffix → String
  | .GROUP => "grp"

/-- Modelled from the spec: `MayaDagObject.compose` lives in
`core/maya_object.py`, which is not among the sources; the spec only says the
class holds "cached scene-object references" whose names are direct mappings.
We model it as building a scene-object name deterministically from the side,
the base name, the suffix and the character initials; the claims depend only
on the composed reference being a function of these four arguments. -/
def MayaDagObject.compose (side : Side) (base : String) (suffix : Suffix)
    (initials : String) : MayaDagObject :=
  ⟨initials ++ "_" ++ side.tag ++ "_" ++ base ++ "_" ++ suffix.tag⟩

/-! ## Scene model

`selection` models `cmds.ls(sl=True, tl=True, l=True)` (full paths of the
selected objects); `transforms` models the scene transform nodes in the
order the breadth-first `MItDag` traversal yields them (a freshly created
root-level group is appended at the end); `attrs` is an association list
of `(object, attribute, record)` modelling node attributes. -/

inductive AttrVal where
  | str (s : String)
  | float (v : Rat)
deriving DecidableEq, Repr

structure AttrRec where
  value : AttrVal
  locked : Bool
  keyable : Bool
deriving DecidableEq, Repr

structure Scene where
  selection : List String
  transforms : List String
  attrs : List (String × String × AttrRec)
deriving DecidableEq, Repr

def emptyScene : Scene := ⟨[], [], []⟩

def lookupAttr (obj attr : String) : List (String × String × AttrRec) → Option AttrRec
  | [] => none
  | (o, a, r) :: rest => if o = obj ∧ a = attr then some r else lookupAttr obj attr rest

/-- `object.attr(name).exists()` -/
def attrExists (s : Scene) (obj attr : String) : Bool :=
  (lookupAttr obj attr s.attrs).isSome

/-- `object.attr(name).get_str()` -/
def getStr (s : Scene) (obj attr : String) : String :=
  match lookupAttr obj attr s.attrs with
  | some ⟨.str v, _, _⟩ => v
  | _ => ""

/-- `object.attr(name).get_float()`; `none` models the host error raised
when the attribute is missing or is not numeric. -/
def getFloat (s : Scene) (obj attr : String) : Option Rat :=
  match lookupAttr obj attr s.attrs with
  | some ⟨.float v, _, _⟩ => some v
  | _ => none

/-- `cmds.objExists`-style existence: the object is a transform of the scene. -/
def objExists (s : Scene) (name : String) : Bool :=
  s.transforms.contains name

/-! ## `Character` cached state

Each Python class attribute of `Character` becomes a field; `none` is the
initial `None`.  `controls_grp` is not declared on the class but is created
dynamically by `setCharacter`. -/

structure CharacterState where
  raw_name : Option String
  name : Option String
  initials : Option String
  marker_grp : Option MayaDagObject
  output_grp : Option MayaDagObject
  internals_grp : Option MayaDagObject
  controls_grp : Option MayaDagObject
  geometry_grp : Option MayaDagObject
  pose_grp : Option MayaDagObject
  systems_grp : Option MayaDagObject
  bind_grp : Option MayaDagObject
  layout_control : Option MayaDagObject
  cog_control : Option MayaDagObject
deriving DecidableEq, Repr

/-- The class-attribute defaults: every field `None`. -/
def initialState : CharacterState :=
  ⟨none, none, none, none, none, none, none, none, none, none, none, none, none⟩

namespace Character

/-- `Character.setCharacter(initials, name)` -/
def setCharacter (initials name : String) (c : CharacterState) : CharacterState :=
  { c with
    raw_name := some name
    name := some (camelCase name)
    initials := some initials
    marker_grp := some ⟨camelCase name ++ "_markers"⟩
    output_grp := some ⟨camelCase name⟩
    internals_grp := some ⟨initials ++ "_DO_NOT_TOUCH"⟩
    controls_grp := some (MayaDagObject.compose .CENTER "Controls" .GROUP initials)
    geometry_grp := some (MayaDagObject.compose .CENTER "Geometry" .GROUP initials)
    pose_grp := some (MayaDagObject.compose .CENTER "Pose" .GROUP initials)
    systems_grp := some (MayaDagObject.compose .CENTER "Systems" .GROUP initials)
    bind_grp := some (MayaDagObject.compose .CENTER "Bind" .GROUP initials) }

/-- `Character.layout_size()`: dereferences the cached `marker_grp`
(`none` models the `AttributeError` on the `None` default) and reads the
`layoutSize` attribute. -/
def layout_size (s : Scene) (c : CharacterState) : Option Rat :=
  c.marker_grp.bind fun g => getFloat s g.name LAYOUT_SIZE_ATTR

end Character

/-! ## `_load`: find a character to use as context -/

/-- The condition of `_try_set`: the object carries both the `rigGenName`
and `rigGenInitials` attributes. -/
def hasCharAttrs (s : Scene) (obj : String) : Bool :=
  attrExists s obj NAME_ATTR && attrExists s obj INITIALS_ATTR

/-- The state update of a successful `_try_set`:
`Character.setCharacter(initials_attr.get_str(), name_attr.get_str())`. -/
def applySet (s : Scene) (obj : String) (c : CharacterState) : CharacterState :=
  Character.setCharacter (getStr s obj INITIALS_ATTR) (getStr s obj NAME_ATTR) c

/-- `_try_set(object)`: result flag plus the possibly updated state. -/
def trySet (s : Scene) (obj : String) (c : CharacterState) : Bool × CharacterState :=
  if hasCharAttrs s obj then (true, applySet s obj c) else (false, c)

/-- The loop over `active[0].split('|')`: each non-empty component is tried. -/
def scanSel (s : Scene) (c : CharacterState) : List String → Bool × CharacterState
  | [] => (false, c)
  | obj :: rest =>
    if obj ≠ "" ∧ hasCharAttrs s obj then (true, applySet s obj c)
    else scanSel s c rest

/-- The `MItDag` breadth-first loop over the scene transforms. -/
def scanDag (s : Scene) (c : CharacterState) : List String → Bool × CharacterState
  | [] => (false, c)
  | obj :: rest =>
    if hasCharAttrs s obj then (true, applySet s obj c)
    else scanDag s c rest

/-- `_load()`: try the components of the first selected object's full path,
then fall back to the breadth-first transform traversal. -/
def load (s : Scene) (c : CharacterState) : Bool × CharacterState :=
  match s.selection with
  | [] => scanDag s c s.transforms
  | first :: _ =>
    let r := scanSel s c (pySplit '|' first)
    if r.1 then r else scanDag s c s.transforms

/-- The candidate objects `_load` inspects, in order: the non-empty path
components of the first selected object, then the transforms in traversal
order. -/
def selComponents (s : Scene) : List String :=
  match s.selection with
  | [] => []
  | first :: _ => (pySplit '|' first).filter (fun o => o ≠ "")

def loadCandidates (s : Scene) : List String :=
  selComponents s ++ s.transforms

/-! ## The validation regexes of the dialog

`re.match(r'^(?:[A-Za-z][a-zA-Z0-9]*(?:\s|$))+$', name)` and
`re.match(r'^[a-zA-Z][a-zA-Z0-9]*$', initials)`, as executable matchers.
`$` (no MULTILINE) matches at the end of the string or just before a
trailing newline; the greedy `[a-zA-Z0-9]*` never needs backtracking here
because a shorter match would leave an alphanumeric character where only
whitespace or the end may follow. -/

def isAsciiLetter (c : Char) : Bool :=
  ('A' ≤ c && c ≤ 'Z') || ('a' ≤ c && c ≤ 'z')

def isAsciiAlnum (c : Char) : Bool :=
  isAsciiLetter c || ('0' ≤ c && c ≤ '9')

/-- Python ASCII `\s`: space, tab, newline, carriage return, form feed,
vertical tab. -/
def isPySpace (c : Char) : Bool :=
  c = ' ' || c = '\t' || c = '\n' || c = '\x0d' || c = '\x0c' || c = '\x0b'

/-- `$` (without MULTILINE): end of input, or just before a trailing newline. -/
def atEnd : List Char → Bool
  | [] => true
  | [c] => c = '\n'
  | _ => false

/-- Drop the maximal run of `[a-zA-Z0-9]` characters. -/
def dropAlnum : List Char → List Char
  | [] => []
  | c :: cs => if isAsciiAlnum c then dropAlnum cs else c :: cs

/-- State machine for `^(?:[A-Za-z][a-zA-Z0-9]*(?:\s|$))+$` after the first
letter of a word.  `inWord = true`: at least one character of the current
word has been consumed, so `[a-zA-Z0-9]*` may continue or the word may close
with `\s` or `$`.  `inWord = false`: a separator has just been consumed, so
either a new word starts or `$` matches.  The greedy star needs no
backtracking: stopping it early leaves an alphanumeric character where only
whitespace or the end may follow. -/
def nameAux : List Char → Bool → Bool
  | [], _ => true
  | c :: cs, true =>
    if isAsciiAlnum c then nameAux cs true
    else if c = '\n' ∧ cs = [] then true
    else if isPySpace c then nameAux cs false
    else false
  | c :: cs, false =>
    if isAsciiLetter c then nameAux cs true
    else if c = '\n' ∧ cs = [] then true
    else false

/-- Matcher for `^(?:[A-Za-z][a-zA-Z0-9]*(?:\s|$))+$` on the whole input. -/
def nameCore : List Char → Bool
  | [] => false
  | c :: cs => isAsciiLetter c && nameAux cs true

/-- Matcher for `^[a-zA-Z][a-zA-Z0-9]*$` on the whole input. -/
def initialsCore : List Char → Bool
  | [] => false
  | c :: cs => isAsciiLetter c && atEnd (dropAlnum cs)

/-- `name and re.match(r'^(?:[A-Za-z][a-zA-Z0-9]*(?:\s|$))+$', name)` -/
def validName (n : String) : Bool :=
  !(n = "") && nameCore n.data

/-- `initials and re.match(r'^[a-zA-Z][a-zA-Z0-9]*$', initials)` -/
def validInitials (i : String) : Bool :=
  !(i = "") && initialsCore i.data

/-! ## The dialog `submit` handler -/

inductive SubmitResult where
  | errorName
  | errorInitials
  | confirm
deriving DecidableEq, Repr

/-- `submit(*args)` of `_create_ui`, as a function of the two text-field
contents: on invalid input it reports an error (`cmds.error`) and leaves
scene and state alone; on valid input it sets the character, creates an
empty group `<camelCased name>_markers` carrying the two locked string
attributes and the `layoutSize` float attribute with value `50`, and
dismisses the dialog with `'confirm'`. -/
def submit (s : Scene) (name initials : String) (c : CharacterState) :
    SubmitResult × Scene × CharacterState :=
  if ¬ validName name then (.errorName, s, c)
  else if ¬ validInitials initials then (.errorInitials, s, c)
  else
    let c1 := Character.setCharacter initials name c
    let gname := camelCase name ++ "_markers"
    let s1 : Scene :=
      { s with
        transforms := s.transforms ++ [gname]
        attrs :=
          (gname, LAYOUT_SIZE_ATTR, ⟨.float 50, false, false⟩)
            :: (gname, INITIALS_ATTR, ⟨.str initials, true, false⟩)
            :: (gname, NAME_ATTR, ⟨.str name, true, false⟩)
            :: s.attrs }
    (.confirm, s1, c1)

/-! ## `Character.initialize` -/

inductive InitResult where
  | ok (s : Scene) (c : CharacterState)
  | cancelled
deriving DecidableEq, Repr

/-- `cls.marker_grp and cls.marker_grp.exists()`: a marker group is cached
and exists in the scene. -/
def markerCached (s : Scene) (c : CharacterState) : Bool :=
  match c.marker_grp with
  | some g => objExists s g.name
  | none => false

/-- `Character.initialize()`.  The modal `cmds.layoutDialog(ui=_create_ui)`
interaction is a parameter `dialog` mapping the scene and state at the time
the dialog opens to the dismissal string and the scene and state it leaves
behind.  The returned `Bool` records whether the dialog was shown;
`InitResult.cancelled` models the raised `CancelledError`. -/
def initCharacter (dialog : Scene → CharacterState → String × Scene × CharacterState)
    (s : Scene) (c : CharacterState) : Bool × InitResult :=
  let c1 := (load s c).2
  if markerCached s c1 then (false, .ok s c1)
  else
    let r := dialog s c1
    if r.1 = "dismiss" then (true, .cancelled)
    else (true, .ok r.2.1 r.2.2)

/-! ## Characterization of the `_load` loops -/

theorem scanSel_eq_filter (s : Scene) (c : CharacterState) :
    ∀ l : List String, scanSel s c l = scanDag s c (l.filter fun o => o ≠ "")
  | [] => rfl
  | obj :: rest => by
    by_cases h : obj = ""
    · subst h
      simp [scanSel, scanDag, scanSel_eq_filter s c rest]
    · simp only [scanSel, List.filter_cons]
      by_cases h2 : hasCharAttrs s obj = true
      · simp [scanDag, h, h2]
      · simp [scanDag, h, h2, scanSel_eq_filter s c rest]

theorem scanDag_eq_find (s : Scene) (c : CharacterState) :
    ∀ l : List String,
      scanDag s c l =
        match l.find? (hasCharAttrs s) with
        | some o => (true, applySet s o c)
        | none => (false, c)
  | [] => rfl
  | obj :: rest => by
    by_cases h : hasCharAttrs s obj = true
    · simp [scanDag, List.find?_cons, h]
    · simp only [scanDag, List.find?_cons]
      rw [if_neg h]
      simp only [Bool.not_eq_true] at h
      simp [h, scanDag_eq_find s c rest]

/-- `_load` as a first-match search: first over the non-empty path
components of the first selected object, then over the transforms in
traversal order. -/
theorem load_eq_find (s : Scene) (c : CharacterState) :
    load s c =
      match (selComponents s).find? (hasCharAttrs s) with
      | some o => (true, applySet s o c)
      | none =>
        match s.transforms.find? (hasCharAttrs s) with
        | some o => (true, applySet s o c)
        | none => (false, c) := by
  cases hsel : s.selection with
  | nil =>
    simp only [load, selComponents, hsel, scanDag_eq_find, List.find?_nil]
  | cons first rest =>
    simp only [load, selComponents, hsel, scanSel_eq_filter, scanDag_eq_find,
      List.find?_filter]
    cases hf : (pySplit '|' first).find? fun a => !decide (a = "") && hasCharAttrs s a with
    | some o => simp [hf]
    | none => simp [hf]

/-- C3.  `_load` searches, in order, the non-empty components of the first
selected object's full DAG path (root to leaf), and only if none of those
matches does it scan the scene transforms in breadth-first order, stopping at
the first object carrying both character attributes; the matching object is
passed to `setCharacter`. -/
theorem load_search_order (s : Scene) (c : CharacterState) :
    load s c =
      match (selComponents s).find? (hasCharAttrs s) with
      | some o => (true, applySet s o c)
      | none =>
        match s.transforms.find? (hasCharAttrs s) with
        | some o => (true, applySet s o c)
        | none => (false, c) :=
  load_eq_find s c

/-- C2.  `_load` reports success exactly when some candidate object (a
non-empty path component of the first selected object, or a traversed
transform) carries both `rigGenName` and `rigGenInitials`; on success the
state has been set from the matching object's two attribute values via
`setCharacter`. -/
theorem load_success_spec (s : Scene) (c : CharacterState) :
    ((load s c).1 = true ↔ ∃ o ∈ loadCandidates s, hasCharAttrs s o = true)
    ∧ ((load s c).1 = true →
        ∃ o ∈ loadCandidates s, hasCharAttrs s o = true ∧ (load s c).2 = applySet s o c) := by
  rw [load_eq_find]
  unfold loadCandidates
  cases h1 : (selComponents s).find? (hasCharAttrs s) with
  | some o =>
    have hmem := List.mem_of_find?_eq_some h1
    have hp := List.find?_some h1
    constructor
    · simp only [true_iff]
      exact ⟨o, List.mem_append_left _ hmem, hp⟩
    · intro _
      exact ⟨o, List.mem_append_left _ hmem, hp, rfl⟩
  | none =>
    cases h2 : s.transforms.find? (hasCharAttrs s) with
    | some o =>
      have hmem := List.mem_of_find?_eq_some h2
      have hp := List.find?_some h2
      constructor
      · simp only [true_iff]
        exact ⟨o, List.mem_append_right _ hmem, hp⟩
      · intro _
        exact ⟨o, List.mem_append_right _ hmem, hp, rfl⟩
    | none =>
      constructor
      · simp only [Bool.false_eq_true, false_iff]
        rintro ⟨o, hmem, hp⟩
        rcases List.mem_append.mp hmem with hm | hm
        · exact absurd hp (by simpa using List.find?_eq_none.mp h1 o hm)
        · exact absurd hp (by simpa using List.find?_eq_none.mp h2 o hm)
      · intro h
        simp at h

/-- Witness for C2 on a concrete scene holding one marked transform. -/
def witnessScene : Scene :=
  ⟨[], ["JohnDoe_markers"],
    [("JohnDoe_markers", "rigGenName", ⟨.str "John Doe", true, false⟩),
     ("JohnDoe_markers", "rigGenInitials", ⟨.str "jd", true, false⟩),
     ("JohnDoe_markers", "layoutSize", ⟨.float 50, false, false⟩)]⟩

theorem load_success_spec_witness :
    ∃ o ∈ loadCandidates witnessScene, hasCharAttrs witnessScene o = true
      ∧ (load witnessScene initialState).2 = applySet witnessScene o initialState :=
  (load_success_spec witnessScene initialState).2 (by decide)

/-- C9.  When `_load` fails, the `Character` state is untouched. -/
theorem load_failure_frame (s : Scene) (c : CharacterState)
    (h : (load s c).1 = false) : (load s c).2 = c := by
  rw [load_eq_find] at h ⊢
  cases h1 : (selComponents s).find? (hasCharAttrs s) with
  | some o => simp [h1] at h
  | none =>
    cases h2 : s.transforms.find? (hasCharAttrs s) with
    | some o => simp [h1, h2] at h
    | none => simp [h1, h2]

theorem load_failure_frame_witness :
    (load emptyScene initialState).2 = initialState :=
  load_failure_frame emptyScene initialState (by decide)

/-! ## `setCharacter` as a direct mapping -/

/-- C4.  `setCharacter(initials, name)` maps its two arguments directly onto
the cached fields: raw name, camel-cased name, initials, the
`<camelCasedName>_markers` marker group, the camel-cased output group, the
`<initials>_DO_NOT_TOUCH` internals group, and the four composed group names
built from the initials. -/
theorem setCharacter_direct_mapping (i n : String) (c : CharacterState) :
    (Character.setCharacter i n c).raw_name = some n
    ∧ (Character.setCharacter i n c).name = some (camelCase n)
    ∧ (Character.setCharacter i n c).initials = some i
    ∧ (Character.setCharacter i n c).marker_grp = some ⟨camelCase n ++ "_markers"⟩
    ∧ (Character.setCharacter i n c).output_grp = some ⟨camelCase n⟩
    ∧ (Character.setCharacter i n c).internals_grp = some ⟨i ++ "_DO_NOT_TOUCH"⟩
    ∧ (Character.setCharacter i n c).geometry_grp
        = some (MayaDagObject.compose .CENTER "Geometry" .GROUP i)
    ∧ (Character.setCharacter i n c).pose_grp
        = some (MayaDagObject.compose .CENTER "Pose" .GROUP i)
    ∧ (Character.setCharacter i n c).systems_grp
        = some (MayaDagObject.compose .CENTER "Systems" .GROUP i)
    ∧ (Character.setCharacter i n c).bind_grp
        = some (MayaDagObject.compose .CENTER "Bind" .GROUP i) := by
  refine ⟨rfl, rfl, rfl, rfl, rfl, rfl, rfl, rfl, rfl, rfl⟩

/-! ## C5: which reference fields are populated by `setCharacter` -/

/-- The nine scene-object reference fields declared on the `Character` class. -/
def allRefsSome (c : CharacterState) : Bool :=
  c.marker_grp.isSome && c.output_grp.isSome && c.internals_grp.isSome
    && c.geometry_grp.isSome && c.pose_grp.isSome && c.systems_grp.isSome
    && c.bind_grp.isSome && c.layout_control.isSome && c.cog_control.isSome

/-- The seven reference fields `setCharacter` actually assigns. -/
def groupRefsSome (c : CharacterState) : Bool :=
  c.marker_grp.isSome && c.output_grp.isSome && c.internals_grp.isSome
    && c.geometry_grp.isSome && c.pose_grp.isSome && c.systems_grp.isSome
    && c.bind_grp.isSome

/-- C5 counterexample: after `setCharacter` from the initial state,
`layout_control` and `cog_control` are still `None`, so not every declared
reference field is populated. -/
theorem setCharacter_not_all_refs :
    ¬ allRefsSome (Character.setCharacter "jd" "John Doe" initialState) = true := by
  decide

/-- C5 (amended).  After any call to `setCharacter`, the seven group
reference fields it assigns are non-`None`, while `layout_control` and
`cog_control` keep their previous values (so they remain `None` from the
class defaults unless something else set them). -/
theorem setCharacter_group_refs (i n : String) (c : CharacterState) :
    groupRefsSome (Character.setCharacter i n c) = true
    ∧ (Character.setCharacter i n c).layout_control = c.layout_control
    ∧ (Character.setCharacter i n c).cog_control = c.cog_control := by
  refine ⟨rfl, rfl, rfl⟩

/-! ## `initialize` -/

/-- A dialog interaction that the user immediately cancels. -/
def dlgDismiss : Scene → CharacterState → String × Scene × CharacterState :=
  fun s c => ("dismiss", s, c)

/-- C1.  `initialize` first runs `_load`; it opens the creation dialog
exactly when, after that inspection, no cached marker group exists, and when
a cached marker group exists it returns the loaded state without prompting. -/
theorem init_prompt_gate
    (dialog : Scene → CharacterState → String × Scene × CharacterState)
    (s : Scene) (c : CharacterState) :
    ((initCharacter dialog s c).1 = false ↔ markerCached s (load s c).2 = true)
    ∧ (markerCached s (load s c).2 = true →
        initCharacter dialog s c = (false, .ok s (load s c).2)) := by
  by_cases h : markerCached s (load s c).2 = true
  · refine ⟨by simp [initCharacter, h], fun _ => by simp [initCharacter, h]⟩
  · refine ⟨?_, fun hh => absurd hh h⟩
    by_cases hd : (dialog s (load s c).2).1 = "dismiss"
    · simp [initCharacter, h, hd]
    · simp [initCharacter, h, hd]

theorem init_prompt_gate_witness :
    initCharacter dlgDismiss witnessScene initialState
      = (false, .ok witnessScene (load witnessScene initialState).2) :=
  (init_prompt_gate dlgDismiss witnessScene initialState).2 (by decide)

/-- C6.  `initialize` raises `CancelledError` exactly when the dialog is
shown (no cached-and-existing marker group after `_load`) and the dialog
result is `'dismiss'`; otherwise it returns normally. -/
theorem init_cancel_iff
    (dialog : Scene → CharacterState → String × Scene × CharacterState)
    (s : Scene) (c : CharacterState) :
    (initCharacter dialog s c).2 = .cancelled ↔
      markerCached s (load s c).2 = false
        ∧ (dialog s (load s c).2).1 = "dismiss" := by
  by_cases h : markerCached s (load s c).2 = true
  · simp [initCharacter, h]
  · by_cases hd : (dialog s (load s c).2).1 = "dismiss"
    · simp [initCharacter, h, hd]
    · simp [initCharacter, h, hd]

theorem init_cancel_iff_witness :
    (initCharacter dlgDismiss emptyScene initialState).2 = .cancelled :=
  (init_cancel_iff dlgDismiss emptyScene initialState).mpr (by decide)

/-! ## The `submit` handler -/

theorem submit_invalid_name (s : Scene) (n i : String) (c : CharacterState)
    (h : ¬ validName n = true) : submit s n i c = (.errorName, s, c) := by
  simp [submit, h]

theorem submit_invalid_initials (s : Scene) (n i : String) (c : CharacterState)
    (hn : validName n = true) (h : ¬ validInitials i = true) :
    submit s n i c = (.errorInitials, s, c) := by
  simp [submit, hn, h]

theorem submit_valid (s : Scene) (n i : String) (c : CharacterState)
    (hn : validName n = true) (hi : validInitials i = true) :
    submit s n i c =
      (.confirm,
        { s with
          transforms := s.transforms ++ [camelCase n ++ "_markers"]
          attrs :=
            (camelCase n ++ "_markers", LAYOUT_SIZE_ATTR, ⟨.float 50, false, false⟩)
              :: (camelCase n ++ "_markers", INITIALS_ATTR, ⟨.str i, true, false⟩)
              :: (camelCase n ++ "_markers", NAME_ATTR, ⟨.str n, true, false⟩)
              :: s.attrs },
        Character.setCharacter i n c) := by
  simp [submit, hn, hi]

theorem lookupAttr_cons_of_ne (obj attr o a : String) (r : AttrRec)
    (rest : List (String × String × AttrRec)) (h : ¬ (o = obj ∧ a = attr)) :
    lookupAttr obj attr ((o, a, r) :: rest) = lookupAttr obj attr rest := by
  simp [lookupAttr, h]

theorem lookupAttr_cons_self (obj attr : String) (r : AttrRec)
    (rest : List (String × String × AttrRec)) :
    lookupAttr obj attr ((obj, attr, r) :: rest) = some r := by
  simp [lookupAttr]

/-- C7.  The dialog submit handler confirms exactly when both fields pass
their validation regexes; on invalid input it changes neither the scene nor
the `Character` state; on valid input it sets the character, creates the
`<camelCasedName>_markers` group carrying the two locked string attributes
and the `layoutSize` float attribute with value `50`, and dismisses with
`'confirm'`. -/
theorem submit_spec (s : Scene) (n i : String) (c : CharacterState) :
    ((submit s n i c).1 = .confirm ↔ validName n = true ∧ validInitials i = true)
    ∧ ((submit s n i c).1 ≠ .confirm →
        (submit s n i c).2.1 = s ∧ (submit s n i c).2.2 = c)
    ∧ (validName n = true → validInitials i = true →
        (submit s n i c).1 = .confirm
        ∧ objExists (submit s n i c).2.1 (camelCase n ++ "_markers") = true
        ∧ lookupAttr (camelCase n ++ "_markers") NAME_ATTR (submit s n i c).2.1.attrs
            = some ⟨.str n, true, false⟩
        ∧ lookupAttr (camelCase n ++ "_markers") INITIALS_ATTR (submit s n i c).2.1.attrs
            = some ⟨.str i, true, false⟩
        ∧ lookupAttr (camelCase n ++ "_markers") LAYOUT_SIZE_ATTR (submit s n i c).2.1.attrs
            = some ⟨.float 50, false, false⟩
        ∧ (submit s n i c).2.2 = Character.setCharacter i n c) := by
  have hLN : ¬ (LAYOUT_SIZE_ATTR = NAME_ATTR) := by decide
  have hIN : ¬ (INITIALS_ATTR = NAME_ATTR) := by decide
  have hLI : ¬ (LAYOUT_SIZE_ATTR = INITIALS_ATTR) := by decide
  by_cases hn : validName n = true
  · by_cases hi : validInitials i = true
    · rw [submit_valid s n i c hn hi]
      refine ⟨by simp [hn, hi], by simp, fun _ _ => ?_⟩
      refine ⟨rfl, ?_, ?_, ?_, ?_, rfl⟩
      · simp [objExists]
      · rw [lookupAttr_cons_of_ne _ _ _ _ _ _ (fun hh => hLN hh.2),
          lookupAttr_cons_of_ne _ _ _ _ _ _ (fun hh => hIN hh.2),
          lookupAttr_cons_self]
      · rw [lookupAttr_cons_of_ne _ _ _ _ _ _ (fun hh => hLI hh.2),
          lookupAttr_cons_self]
      · rw [lookupAttr_cons_self]
    · rw [submit_invalid_initials s n i c hn hi]
      exact ⟨by simp [hi], by simp, fun _ hh => absurd hh hi⟩
  · rw [submit_invalid_name s n i c hn]
    exact ⟨by simp [hn], by simp, fun hh => absurd hh hn⟩

theorem submit_spec_witness :
    (submit emptyScene "John Doe" "jd" initialState).1 = SubmitResult.confirm
    ∧ objExists (submit emptyScene "John Doe" "jd" initialState).2.1
        (camelCase "John Doe" ++ "_markers") = true
    ∧ (submit emptyScene "John Doe" "jd" initialState).2.2
        = Character.setCharacter "jd" "John Doe" initialState := by
  obtain ⟨-, -, hc⟩ := submit_spec emptyScene "John Doe" "jd" initialState
  have h := hc (by decide) (by decide)
  exact ⟨h.1, h.2.1, h.2.2.2.2.2⟩

/-- C8.  Round trip: a record created by a successful submission on an
otherwise empty scene is discovered by the scene search, and `_load` applies
`setCharacter` to exactly the same `(initials, name)` pair, reproducing the
state the submission cached. -/
theorem submit_load_round_trip (n i : String) (c : CharacterState)
    (hn : validName n = true) (hi : validInitials i = true) :
    (submit emptyScene n i c).1 = .confirm
    ∧ load (submit emptyScene n i c).2.1 c = (true, (submit emptyScene n i c).2.2) := by
  have hLN : ¬ (LAYOUT_SIZE_ATTR = NAME_ATTR) := by decide
  have hIN : ¬ (INITIALS_ATTR = NAME_ATTR) := by decide
  have hLI : ¬ (LAYOUT_SIZE_ATTR = INITIALS_ATTR) := by decide
  rw [submit_valid emptyScene n i c hn hi]
  refine ⟨rfl, ?_⟩
  simp only [emptyScene, List.nil_append]
  rw [show (load
      ⟨[], [camelCase n ++ "_markers"],
        [(camelCase n ++ "_markers", LAYOUT_SIZE_ATTR, ⟨.float 50, false, false⟩),
         (camelCase n ++ "_markers", INITIALS_ATTR, ⟨.str i, true, false⟩),
         (camelCase n ++ "_markers", NAME_ATTR, ⟨.str n, true, false⟩)]⟩ c)
      = scanDag _ c [camelCase n ++ "_markers"] from rfl]
  simp only [scanDag, hasCharAttrs, attrExists, applySet, getStr]
  rw [lookupAttr_cons_of_ne _ _ _ _ _ _ (fun hh => hLN hh.2),
    lookupAttr_cons_of_ne _ _ _ _ _ _ (fun hh => hIN hh.2),
    lookupAttr_cons_self,
    lookupAttr_cons_of_ne _ _ _ _ _ _ (fun hh => hLI hh.2),
    lookupAttr_cons_self]
  simp

theorem submit_load_round_trip_witness :
    (submit emptyScene "John Doe" "jd" initialState).1 = .confirm
    ∧ load (submit emptyScene "John Doe" "jd" initialState).2.1 initialState
        = (true, (submit emptyScene "John Doe" "jd" initialState).2.2) :=
  submit_load_round_trip "John Doe" "jd" initialState (by decide) (by decide)

/-! ## `layout_size` -/

/-- C10.  `layout_size` dereferences the cached marker group: on the initial
state (`marker_grp` still `None`) the call fails rather than returning a
value, and once `setCharacter` has run it returns the float value of the
marker group's `layoutSize` attribute. -/
theorem layout_size_spec (s : Scene) (i n : String) (c : CharacterState)
    (q : Rat) (r : AttrRec)
    (hr : lookupAttr (camelCase n ++ "_markers") LAYOUT_SIZE_ATTR s.attrs = some r)
    (hq : r.value = .float q) :
    Character.layout_size s initialState = none
    ∧ Character.layout_size s (Character.setCharacter i n c) = some q := by
  refine ⟨rfl, ?_⟩
  simp only [Character.layout_size, Character.setCharacter, Option.bind_some,
    Option.some_bind, getFloat, hr]
  obtain ⟨v, lk, kb⟩ := r
  simp only at hq
  rw [hq]

theorem layout_size_spec_witness :
    Character.layout_size witnessScene initialState = none
    ∧ Character.layout_size witnessScene
        (Character.setCharacter "jd" "John Doe" initialState) = some 50 :=
  layout_size_spec witnessScene "jd" "John Doe" initialState 50
    ⟨.float 50, false, false⟩ (by decide) rfl

end Context
